import Mathlib

set_option maxRecDepth 65536

/-!
Verification development for the Zygo metrology binary reader
(`monolithic/io/zygo.py`): a shallow embedding in Lean 4 of the `.dat`
header decoder (`_read_zygo_dat_meta`), the payload extractor and phase
calibration (`read_zygo_dat`), and the aperture reconstruction step of
`read_zygo_binary`, together with theorems settling the specification
claims about them.

Modelling conventions:
* a raw file is a `List Nat` of byte values;
* `struct.unpack` on a slice of the wrong size raises `struct.error`, which
  is modelled by the `ZErr.structError` outcome of the fallible readers;
* Python exceptions become constructors of the inductive type `ZErr`; the
  spec-level `FormatError` category is the predicate `IsFormatError`;
* IEEE-754 binary32 header fields are decoded exactly into `ℚ`
  (`f32toRat`); the Inf/NaN patterns (exponent 255), which no claim in
  this development touches, lie outside the rational model and are mapped
  to 0; all subsequent float arithmetic is modelled exactly in `ℚ`;
* numpy arrays are modelled by dimensions plus an index-to-value function
  (`Arr2`) or a row-major flat list (`Arr3`), matching numpy's row-major
  memory layout; `np.nan` entries of the height arrays are `Option.none`.
-/

/-- Byte at offset `i` of the buffer (0 when out of range; every use either
carries an explicit bounds check or is guarded by one). -/
def byteAt (buf : List Nat) (i : Nat) : Nat := buf.getD i 0

/-- Big-endian 16-bit unsigned value at `off`, as decoded by a
`struct.unpack('>H', ...)` call on `buf[off:off+2]`. -/
def u16beAt (buf : List Nat) (off : Nat) : Nat :=
  byteAt buf off * 256 + byteAt buf (off + 1)

/-- Little-endian 16-bit unsigned value at `off` (`struct.unpack('<H', ...)`). -/
def u16leAt (buf : List Nat) (off : Nat) : Nat :=
  byteAt buf off + byteAt buf (off + 1) * 256

/-- Big-endian 32-bit unsigned value at `off` (`struct.unpack('>I', ...)`). -/
def u32beAt (buf : List Nat) (off : Nat) : Nat :=
  ((byteAt buf off * 256 + byteAt buf (off + 1)) * 256 + byteAt buf (off + 2)) * 256
    + byteAt buf (off + 3)

/-- Little-endian 32-bit unsigned value at `off` (`struct.unpack('<I', ...)`). -/
def u32leAt (buf : List Nat) (off : Nat) : Nat :=
  ((byteAt buf (off + 3) * 256 + byteAt buf (off + 2)) * 256 + byteAt buf (off + 1)) * 256
    + byteAt buf off

/-- Big-endian 32-bit two's-complement signed value at `off`: the effect of
reading native `int32` with `np.frombuffer` and then `.byteswap(True)` on a
little-endian host. -/
def i32beAt (buf : List Nat) (off : Nat) : Int :=
  let u := u32beAt buf off
  if u < 2 ^ 31 then (u : Int) else (u : Int) - 2 ^ 32

/-- Exact rational value of an IEEE-754 binary32 bit pattern.  Finite
patterns are decoded exactly; the exponent-255 patterns (Inf/NaN) are
outside the rational model and are mapped to 0 (no claim below depends on
a header whose calibration floats are Inf/NaN). -/
def f32toRat (b : Nat) : ℚ :=
  let sign : Nat := b / 2 ^ 31 % 2
  let ex : Nat := b / 2 ^ 23 % 2 ^ 8
  let frac : Nat := b % 2 ^ 23
  let mag : ℚ :=
    if ex = 0 then (frac : ℚ) / 2 ^ 149
    else if ex = 255 then 0
    else (((2 : ℚ) ^ 23 + (frac : ℚ)) * 2 ^ ex) / 2 ^ 150
  if sign = 1 then -mag else mag

/-- Strict UTF-8 validity of a byte sequence (RFC 3629), as enforced by
Python's `bytes.decode('utf-8')`: rejects lone continuation bytes,
overlong encodings (C0/C1, E0 80–9F, F0 80–8F), surrogates (ED A0–BF),
values above U+10FFFF (F5–FF, F4 90–BF) and truncated sequences. -/
def utf8Cont (b : Nat) : Bool := 128 ≤ b && b ≤ 191

/-- Main UTF-8 validity scanner (see `utf8Cont`). -/
def utf8Valid : List Nat → Bool
  | [] => true
  | b :: r =>
    if b < 128 then utf8Valid r
    else if b < 194 then false
    else if b ≤ 223 then
      match r with
      | b1 :: r' => utf8Cont b1 && utf8Valid r'
      | [] => false
    else if b ≤ 239 then
      match r with
      | b1 :: b2 :: r' =>
        (if b = 224 then 160 ≤ b1 && b1 ≤ 191
         else if b = 237 then 128 ≤ b1 && b1 ≤ 159
         else utf8Cont b1) && utf8Cont b2 && utf8Valid r'
      | _ => false
    else if b ≤ 244 then
      match r with
      | b1 :: b2 :: b3 :: r' =>
        (if b = 240 then 144 ≤ b1 && b1 ≤ 191
         else if b = 244 then 128 ≤ b1 && b1 ≤ 143
         else utf8Cont b1) && utf8Cont b2 && utf8Cont b3 && utf8Valid r'
      | _ => false
    else false

/-- The byte slice `buf[a:b]` with Python's clamping slice semantics. -/
def textSlice (buf : List Nat) (a b : Nat) : List Nat :=
  (buf.drop a).take (b - a)

/-- Trailing NUL bytes stripped, as `str.rstrip('\x00')` does on the
decoded text (byte-level view; identical for the NUL padding at issue). -/
def rstripZeros (l : List Nat) : List Nat :=
  (l.reverse.dropWhile (fun b => b = 0)).reverse

/-- Failure outcomes of the reader, one constructor per distinct Python
exception site in `zygo.py`:
* `valueErrorTriple` — `ValueError` raised on an invalid
  (magic, format, size) combination in `_read_zygo_dat_meta`;
* `structError` — `struct.error` from `struct.unpack` on a slice of the
  wrong size (buffer too short for a fixed header field);
* `unicodeError` — `UnicodeDecodeError` from `.decode('utf-8')`;
* `bufferTooSmall` — `ValueError` from `np.frombuffer` when the declared
  payload extends past the end of the buffer;
* `keyErrorPhaseRes` — `KeyError` from `ZYGO_PHASE_RES_FACTORS[...]` on an
  unrecognized phase-resolution code;
* `attributeError` — `.shape` on `None` when phase is absent;
* `indexError` — `Z_intensity[0]` on an empty bucket stack;
* `valueErrorEmptyReduce` — `np.nanmax`/`np.nanmin` on an empty array;
* `broadcastError` — `ValueError` from a numpy slice assignment whose
  source shape does not broadcast to the target window;
* `valueErrorBadExt` — `ValueError` raised by `read_zygo_binary` for an
  unrecognized file extension (carries the extension). -/
inductive ZErr where
  | valueErrorTriple
  | structError
  | unicodeError
  | bufferTooSmall
  | keyErrorPhaseRes
  | attributeError
  | indexError
  | valueErrorEmptyReduce
  | broadcastError
  | valueErrorBadExt (ext : List Char)
deriving DecidableEq

/-- Modelled from the spec: the error taxonomy of spec §7 groups the
magic/version/size mismatch, the unrecognized phase-resolution code and
the out-of-range crop window under the name `FormatError`.  This predicate
maps each concrete failure of the code to that spec-level category. -/
def IsFormatError : ZErr → Bool
  | .valueErrorTriple => true
  | .keyErrorPhaseRes => true
  | .broadcastError => true
  | _ => false

/-- Whether an `Except` outcome is a success. -/
def isOkE {ε α : Type} : Except ε α → Bool
  | .ok _ => true
  | .error _ => false

/-- Fallible big-endian u16 read: `struct.unpack('>H', buf[off:off+2])`
fails with `struct.error` unless the slice has exactly 2 bytes. -/
def rdUB16 (buf : List Nat) (off : Nat) : Except ZErr Nat :=
  if off + 2 ≤ buf.length then .ok (u16beAt buf off) else .error .structError

/-- Fallible little-endian u16 read (`struct.unpack('<H', ...)`). -/
def rdUL16 (buf : List Nat) (off : Nat) : Except ZErr Nat :=
  if off + 2 ≤ buf.length then .ok (u16leAt buf off) else .error .structError

/-- Fallible big-endian u32 read (`struct.unpack('>I', ...)`). -/
def rdUB32 (buf : List Nat) (off : Nat) : Except ZErr Nat :=
  if off + 4 ≤ buf.length then .ok (u32beAt buf off) else .error .structError

/-- Fallible little-endian u32 read (`struct.unpack('<I', ...)`). -/
def rdUL32 (buf : List Nat) (off : Nat) : Except ZErr Nat :=
  if off + 4 ≤ buf.length then .ok (u32leAt buf off) else .error .structError

/-- Fallible big-endian float32 read (`struct.unpack('>f', ...)`),
decoded exactly into `ℚ` by `f32toRat`. -/
def rdFB32 (buf : List Nat) (off : Nat) : Except ZErr ℚ :=
  if off + 4 ≤ buf.length then .ok (f32toRat (u32beAt buf off)) else .error .structError

/-- Fallible little-endian float32 read (`struct.unpack('<f', ...)`). -/
def rdFL32 (buf : List Nat) (off : Nat) : Except ZErr ℚ :=
  if off + 4 ≤ buf.length then .ok (f32toRat (u32leAt buf off)) else .error .structError

/-- Fallible unsigned byte read (`struct.unpack('B', ...)`). -/
def rdU8 (buf : List Nat) (off : Nat) : Except ZErr Nat :=
  if off + 1 ≤ buf.length then .ok (byteAt buf off) else .error .structError

/-- Fallible text-field read: `buf[a:b].decode('utf-8').rstrip('\x00')`.
Slicing clamps (never fails); decoding fails on invalid UTF-8. -/
def rdText (buf : List Nat) (a b : Nat) : Except ZErr (List Nat) :=
  if utf8Valid (textSlice buf a b) = true then .ok (rstripZeros (textSlice buf a b))
  else .error .unicodeError

/-- Fallible single-character read (`struct.unpack('c', ...)` followed by
`.decode('utf-8').rstrip('\x00')`): needs exactly one byte, then a valid
single-byte UTF-8 decode. -/
def rdChar (buf : List Nat) (off : Nat) : Except ZErr (List Nat) :=
  if off + 1 ≤ buf.length then
    (if utf8Valid (textSlice buf off (off + 1)) = true then
      .ok (rstripZeros (textSlice buf off (off + 1)))
     else .error .unicodeError)
  else .error .structError

/-- The accepted (magic number, header format, header size) combinations
of `_read_zygo_dat_meta` (zygo.py lines 175–185). -/
def validTripleB (magic fmt size : Nat) : Bool :=
  decide (magic = 0x881B036F ∧ fmt = 1 ∧ size = 834
    ∨ magic = 0x881B0370 ∧ fmt = 2 ∧ size = 834
    ∨ magic = 0x881B0371 ∧ fmt = 3 ∧ size = 4096)

/-- The header fields of `_read_zygo_dat_meta` that are consumed by the
rest of the pipeline (`read_zygo_dat` and `read_zygo_binary`).  The Python
function stores every field in a dict; the decoder below performs every
fallible read of the source, in source order, and retains the consumed
fields (no downstream code reads the others). -/
structure ZygoMeta where
  header_size : Nat
  ac_width : Nat
  ac_height : Nat
  ac_n_buckets : Nat
  cn_org_x : Nat
  cn_org_y : Nat
  cn_width : Nat
  cn_height : Nat
  scale_factor : ℚ
  wavelength : ℚ
  obliquity_factor : ℚ
  lateral_res : ℚ
  phase_res : Nat
deriving DecidableEq

set_option maxRecDepth 8192 in
/-- Shallow embedding of `_read_zygo_dat_meta` (zygo.py lines 148–364):
every `struct.unpack` and every text decode of the source, at the source's
byte offsets, endianness and order; the (magic, format, size) triple is
validated right after the first three reads and any other combination
raises `ValueError` (`ZErr.valueErrorTriple`). -/
def read_zygo_dat_meta (buf : List Nat) : Except ZErr ZygoMeta := do
  let magic_number ← rdUB32 buf 0
  let header_format ← rdUB16 buf 4
  let header_size ← rdUB32 buf 6
  if ¬ (validTripleB magic_number header_format header_size = true) then
    throw ZErr.valueErrorTriple
  else
  let _swinfo_type ← rdUB16 buf 10
  let _swinfo_date ← rdText buf 12 42
  let _swinfo_vers_maj ← rdUB16 buf 42
  let _swinfo_vers_min ← rdUB16 buf 44
  let _swinfo_vers_bug ← rdUB16 buf 46
  let _ac_org_x ← rdUB16 buf 48
  let _ac_org_y ← rdUB16 buf 50
  let ac_width ← rdUB16 buf 52
  let ac_height ← rdUB16 buf 54
  let ac_n_buckets ← rdUB16 buf 56
  let _ac_range ← rdUB16 buf 58
  let _ac_n_bytes ← rdUB32 buf 60
  let cn_org_x ← rdUB16 buf 64
  let cn_org_y ← rdUB16 buf 66
  let cn_width ← rdUB16 buf 68
  let cn_height ← rdUB16 buf 70
  let _cn_n_bytes ← rdUB32 buf 72
  let _time_stamp ← rdUB32 buf 76
  let _comment ← rdText buf 80 162
  let _source ← rdUB16 buf 162
  let scale_factor ← rdFB32 buf 164
  let wavelength ← rdFB32 buf 168
  let _num_aperture ← rdFB32 buf 172
  let obliquity_factor ← rdFB32 buf 176
  let _magnification ← rdFB32 buf 180
  let lateral_res ← rdFB32 buf 184
  let _acq_type ← rdUB16 buf 188
  let _intens_avg_count ← rdUB16 buf 190
  let _ramp_cal ← rdUB16 buf 192
  let _sfac_limit ← rdUB16 buf 194
  let _ramp_gain ← rdUB16 buf 196
  let _part_thickness ← rdFB32 buf 198
  let _sw_llc ← rdUB16 buf 202
  let _target_range ← rdFB32 buf 204
  let _rad_crv_measure_seq ← rdUL16 buf 208
  let _min_mod ← rdUB32 buf 210
  let _min_mod_count ← rdUB32 buf 214
  let phase_res ← rdUB16 buf 218
  let _min_area ← rdUB32 buf 220
  let _discon_action ← rdUB16 buf 224
  let _discon_filter ← rdFB32 buf 226
  let _connect_order ← rdUB16 buf 230
  let _sign ← rdUB16 buf 232
  let _camera_width ← rdUB16 buf 234
  let _camera_height ← rdUB16 buf 236
  let _sys_type ← rdUB16 buf 238
  let _sys_board ← rdUB16 buf 240
  let _sys_serial ← rdUB16 buf 242
  let _sys_inst_id ← rdUB16 buf 244
  let _obj_name ← rdText buf 246 258
  let _part_name ← rdText buf 258 298
  let _codev_type ← rdUB16 buf 298
  let _phase_avg_count ← rdUB16 buf 300
  let _sub_sys_err ← rdUB16 buf 302
  let _part_sn ← rdText buf 320 360
  let _refractive_index ← rdFB32 buf 360
  let _remove_tilt ← rdUB16 buf 364
  let _remove_fringes ← rdUB16 buf 366
  let _max_area ← rdUB32 buf 368
  let _setup_type ← rdUB16 buf 372
  let _wrapped ← rdUB16 buf 374
  let _pre_connect_filter ← rdFB32 buf 376
  let _wavelength_in_2 ← rdFB32 buf 380
  let _wavelength_fold ← rdUB16 buf 384
  let _wavelength_in_1 ← rdFB32 buf 386
  let _wavelength_in_3 ← rdFB32 buf 390
  let _wavelength_in_4 ← rdFB32 buf 394
  let _wavelength_select ← rdText buf 398 406
  let _fda_res ← rdUB16 buf 406
  let _scan_description ← rdText buf 408 428
  let _n_fiducials ← rdUB16 buf 428
  let _fiducials_0 ← rdFB32 buf 430
  let _fiducials_1 ← rdFB32 buf 434
  let _fiducials_2 ← rdFB32 buf 438
  let _fiducials_3 ← rdFB32 buf 442
  let _fiducials_4 ← rdFB32 buf 446
  let _fiducials_5 ← rdFB32 buf 450
  let _fiducials_6 ← rdFB32 buf 454
  let _fiducials_7 ← rdFB32 buf 458
  let _fiducials_8 ← rdFB32 buf 462
  let _fiducials_9 ← rdFB32 buf 466
  let _fiducials_10 ← rdFB32 buf 470
  let _fiducials_11 ← rdFB32 buf 474
  let _fiducials_12 ← rdFB32 buf 478
  let _fiducials_13 ← rdFB32 buf 482
  let _pixel_width ← rdFB32 buf 486
  let _pixel_height ← rdFB32 buf 490
  let _exit_pupil_diameter ← rdFB32 buf 494
  let _light_level_percent ← rdFB32 buf 498
  let _coords_state ← rdUL32 buf 502
  let _coords_x_pos ← rdFL32 buf 506
  let _coords_y_pos ← rdFL32 buf 510
  let _coords_z_pos ← rdFL32 buf 514
  let _coords_x_rot ← rdFL32 buf 518
  let _coords_y_rot ← rdFL32 buf 522
  let _coords_z_rot ← rdFL32 buf 526
  let _coherence_mode ← rdUL16 buf 530
  let _surface_filter ← rdUL16 buf 532
  let _sys_err_file_name ← rdText buf 534 562
  let _zoom_descr ← rdText buf 562 570
  let _alpha_part ← rdFL32 buf 570
  let _beta_part ← rdFL32 buf 574
  let _dist_part ← rdFL32 buf 578
  let _cam_split_loc_x ← rdUL16 buf 582
  let _cam_split_loc_y ← rdUL16 buf 584
  let _cam_split_trans_x ← rdUL16 buf 586
  let _cam_split_trans_y ← rdUL16 buf 588
  let _material_a ← rdText buf 590 614
  let _material_b ← rdText buf 614 638
  let _dmi_ctr_x ← rdFL32 buf 642
  let _dmi_ctr_y ← rdFL32 buf 646
  let _sph_dist_corr ← rdUL16 buf 650
  let _sph_dist_part_na ← rdFL32 buf 654
  let _sph_dist_part_radius ← rdFL32 buf 658
  let _sph_dist_cal_na ← rdFL32 buf 662
  let _sph_dist_cal_radius ← rdFL32 buf 666
  let _surface_type ← rdUL16 buf 670
  let _ac_surface_type ← rdUL16 buf 672
  let _z_pos ← rdFL32 buf 674
  let _power_multiplier ← rdFL32 buf 678
  let _focus_multiplier ← rdFL32 buf 682
  let _roc_focus_cal_factor ← rdFL32 buf 686
  let _roc_power_cal_factor ← rdFL32 buf 690
  let _ftp_left_pos ← rdFL32 buf 694
  let _ftp_right_pos ← rdFL32 buf 698
  let _ftp_pitch_pos ← rdFL32 buf 702
  let _ftp_roll_pos ← rdFL32 buf 706
  let _min_mod_percent ← rdFL32 buf 710
  let _max_intens ← rdUL32 buf 714
  let _ring_of_fire ← rdUL16 buf 718
  let _rc_orientation ← rdChar buf 721
  let _rc_distance ← rdFL32 buf 722
  let _rc_angle ← rdFL32 buf 726
  let _rc_diameter ← rdFL32 buf 730
  let _rem_fringes_mode ← rdUB16 buf 734
  let _ftpsi_phase_res ← rdU8 buf 737
  let _frames_acquired ← rdUL16 buf 738
  let _cavity_type ← rdUL16 buf 740
  let _cam_frame_rate ← rdFL32 buf 742
  let _tune_range ← rdFL32 buf 746
  let _cal_pix_loc_x ← rdUL16 buf 750
  let _cal_pix_loc_y ← rdUL16 buf 752
  let _n_test_cal_pts ← rdUL16 buf 754
  let _n_ref_cal_pts ← rdUL16 buf 756
  let _test_cal_pts_0 ← rdFL32 buf 758
  let _test_cal_pts_1 ← rdFL32 buf 762
  let _test_cal_pts_2 ← rdFL32 buf 766
  let _test_cal_pts_3 ← rdFL32 buf 770
  let _ref_cal_pts_0 ← rdFL32 buf 774
  let _ref_cal_pts_1 ← rdFL32 buf 778
  let _ref_cal_pts_2 ← rdFL32 buf 782
  let _ref_cal_pts_3 ← rdFL32 buf 786
  let _test_cal_pix_opd ← rdFL32 buf 790
  let _test_ref_pix_opd ← rdFL32 buf 794
  let _flash_phase_cd_mask ← rdFL32 buf 798
  let _flash_phase_alias_mask ← rdFL32 buf 802
  let _flask_phase_filter ← rdFL32 buf 806
  let _scan_direction ← rdU8 buf 810
  let _ftpsi_res_factor ← rdUL16 buf 814
  pure ⟨header_size, ac_width, ac_height, ac_n_buckets, cn_org_x, cn_org_y,
    cn_width, cn_height, scale_factor, wavelength, obliquity_factor,
    lateral_res, phase_res⟩

/-- Value representing the invalid phase (zygo.py line 20). -/
def ZYGO_INVALID_PHASE : Int := 2147483640

/-- Phase resolution factors for Zygo (zygo.py line 26), as the partial
lookup that a Python dict access performs: `none` models the `KeyError`
raised for an unrecognized code. -/
def ZYGO_PHASE_RES_FACTORS (k : Nat) : Option Nat :=
  if k = 0 then some 4096 else if k = 1 then some 32768
  else if k = 2 then some 131072 else none

/-- Phase calibration (zygo.py lines 136–143), on the flat raw `int32`
sample list: first the sentinel mask (`phase[phase >= ZYGO_INVALID_PHASE]
= np.nan`, the masked entries becoming `none`), then the dict lookup of
the phase-resolution divisor (a `KeyError` for an unrecognized code, in
source order after the mask), then the scaling
`phase *= scale_factor * obliquity_factor * wavelength / divisor`.
The IEEE double arithmetic of the source is modelled exactly in `ℚ`. -/
def calibrate (raw : List Int) (s o w : ℚ) (res : Nat) :
    Except ZErr (List (Option ℚ)) := do
  let masked := raw.map fun v =>
    if ZYGO_INVALID_PHASE ≤ v then none else some ((v : ℚ))
  match ZYGO_PHASE_RES_FACTORS res with
  | none => throw ZErr.keyErrorPhaseRes
  | some d => pure (masked.map (Option.map fun x => x * (s * o * w / (d : ℚ))))

/-- A 3-D numpy array of unsigned 16-bit samples: dimensions plus the
row-major flat buffer, exactly as `np.frombuffer(...).reshape((d0, d1, d2))`
lays it out. -/
structure Arr3 where
  d0 : Nat
  d1 : Nat
  d2 : Nat
  flat : List Nat
deriving DecidableEq

/-- Element `A[b][y][x]` of a reshaped 3-D array: row-major index into the
flat buffer. -/
def Arr3.at3 (A : Arr3) (b y x : Nat) : Option Nat :=
  A.flat.get? ((b * A.d1 + y) * A.d2 + x)

/-- A 2-D numpy array with entries in `α`: dimensions plus an
index-to-value function (row, column).  Entries outside the dimensions
are irrelevant; every theorem below reads only in-range indices. -/
structure Arr2 (α : Type) where
  rows : Nat
  cols : Nat
  val : Nat → Nat → α

/-- `np.frombuffer(buf, offset, count, dtype=np.uint16)`: `count`
native-endian (little-endian host) 16-bit samples starting at byte
`offset`; `ValueError` when the buffer is smaller than the requested
span. -/
def fromBufferU16 (buf : List Nat) (off count : Nat) : Except ZErr (List Nat) :=
  if off + 2 * count ≤ buf.length then
    .ok (List.ofFn fun i : Fin count => u16leAt buf (off + 2 * i))
  else .error .bufferTooSmall

/-- `np.frombuffer(buf, offset, count, dtype=np.int32)` followed by
`.byteswap(True)`: `count` big-endian signed 32-bit samples starting at
byte `offset`; `ValueError` when the buffer is smaller than the requested
span. -/
def fromBufferI32BE (buf : List Nat) (off count : Nat) : Except ZErr (List Int) :=
  if off + 4 * count ≤ buf.length then
    .ok (List.ofFn fun i : Fin count => i32beAt buf (off + 4 * i))
  else .error .bufferTooSmall

/-- The intensity sample count of `read_zygo_dat` (zygo.py lines 114–118):
`ac_width * ac_height * ac_n_buckets`, a declared bucket count of 0 being
treated as 1. -/
def intensSize (m : ZygoMeta) : Nat :=
  m.ac_width * m.ac_height * (if m.ac_n_buckets = 0 then 1 else m.ac_n_buckets)

/-- The decoded result of `read_zygo_dat`: the dict
`{'phase': ..., 'intensity': ..., 'meta': ...}`.  The phase array holds
the calibrated values, `none` marking `np.nan`. -/
structure DatResult where
  meta : ZygoMeta
  intensity : Option Arr3
  phase : Option (Arr2 (Option ℚ))

/-- Shallow embedding of `read_zygo_dat` (zygo.py lines 96–145): decode the
meta data, then read the intensity stack (absent when its computed sample
count is 0) from byte offset `header_size`, then read and calibrate the
phase array (absent when `cn_width * cn_height = 0`) from byte offset
`header_size + intens_size * 2`.  The reshapes keep numpy's row-major
order: intensity element `(b, y, x)` is flat sample `(b*h + y)*w + x`,
phase element `(i, j)` is flat sample `i*cn_width + j`. -/
def read_zygo_dat (buf : List Nat) : Except ZErr DatResult := do
  let meta ← read_zygo_dat_meta buf
  let intens_size := intensSize meta
  let intensity ← if intens_size > 0 then do
      let flat ← fromBufferU16 buf meta.header_size intens_size
      pure (some (⟨(if meta.ac_n_buckets = 0 then 1 else meta.ac_n_buckets),
        meta.ac_height, meta.ac_width, flat⟩ : Arr3))
    else pure none
  let phase_size := meta.cn_width * meta.cn_height
  let phase ← if phase_size > 0 then do
      let raw ← fromBufferI32BE buf (meta.header_size + intens_size * 2) phase_size
      let cal ← calibrate raw meta.scale_factor meta.obliquity_factor
        meta.wavelength meta.phase_res
      pure (some (⟨meta.cn_height, meta.cn_width,
        fun i j => cal.getD (i * meta.cn_width + j) none⟩ : Arr2 (Option ℚ)))
    else pure none
  pure ⟨meta, intensity, phase⟩

/-- Meta data of a successful decode (a placeholder for the error case;
used only under an `isOkE` hypothesis). -/
def okMeta (e : Except ZErr DatResult) : ZygoMeta :=
  match e with
  | .ok r => r.meta
  | .error _ => ⟨0, 0, 0, 0, 0, 0, 0, 0, 0, 0, 0, 0, 0⟩

/-- Intensity stack of a successful decode. -/
def okIntensity (e : Except ZErr DatResult) : Option Arr3 :=
  match e with
  | .ok r => r.intensity
  | .error _ => none

/-- Phase array of a successful decode. -/
def okPhase (e : Except ZErr DatResult) : Option (Arr2 (Option ℚ)) :=
  match e with
  | .ok r => r.phase
  | .error _ => none

/-- All entries of a 2-D array, row-major (used by the `np.nanmax` /
`np.nanmin` reductions; the coordinate arrays contain no NaN, so the
NaN-ignoring reductions are the plain maximum and minimum). -/
def Arr2.entries (A : Arr2 ℚ) : List ℚ :=
  ((List.range A.rows).map fun i => (List.range A.cols).map fun j => A.val i j).flatten

/-- `np.nanmax` over a NaN-free 2-D array: `ValueError` on an empty array,
else the maximum entry. -/
def arrMax (A : Arr2 ℚ) : Except ZErr ℚ :=
  if A.rows = 0 ∨ A.cols = 0 then .error .valueErrorEmptyReduce
  else .ok (A.entries.foldl max (A.val 0 0))

/-- `np.nanmin` over a NaN-free 2-D array: `ValueError` on an empty array,
else the minimum entry. -/
def arrMin (A : Arr2 ℚ) : Except ZErr ℚ :=
  if A.rows = 0 ∨ A.cols = 0 then .error .valueErrorEmptyReduce
  else .ok (A.entries.foldl min (A.val 0 0))

/-- Array-times-scalar (`X * lateral_res`). -/
def scaleArr (c : ℚ) (A : Arr2 ℚ) : Arr2 ℚ :=
  ⟨A.rows, A.cols, fun i j => A.val i j * c⟩

/-- Basic-slice read `A[r0:r1, c0:c1]`: Python slice bounds clamp to the
array's shape; element `(i, j)` of the view is `A[min r0 rows + i,
min c0 cols + j]`. -/
def getSlice {α : Type} (A : Arr2 α) (r0 r1 c0 c1 : Nat) : Arr2 α :=
  ⟨min r1 A.rows - min r0 A.rows, min c1 A.cols - min c0 A.cols,
   fun i j => A.val (min r0 A.rows + i) (min c0 A.cols + j)⟩

/-- Basic-slice assignment `A[r0:r1, c0:c1] = B`: the slice bounds clamp to
`A`'s shape giving the target window; numpy then broadcasts `B` onto the
window — each source dimension must equal the target extent or be 1 —
raising `ValueError` (could not broadcast) otherwise, before any element
is written.  On success, entries inside the window come from `B`
(a size-1 source dimension being replicated), all others are unchanged. -/
def setSlice {α : Type} (A : Arr2 α) (r0 r1 c0 c1 : Nat) (B : Arr2 α) :
    Except ZErr (Arr2 α) :=
  let a := min r0 A.rows
  let b := min r1 A.rows
  let c := min c0 A.cols
  let d := min c1 A.cols
  if (B.rows = b - a ∨ B.rows = 1) ∧ (B.cols = d - c ∨ B.cols = 1) then
    .ok ⟨A.rows, A.cols, fun i j =>
      if a ≤ i ∧ i < b ∧ c ≤ j ∧ j < d then
        B.val (if B.rows = 1 then 0 else i - a) (if B.cols = 1 then 0 else j - c)
      else A.val i j⟩
  else .error .broadcastError

/-- The six arrays returned by `read_zygo_binary`: full-frame coordinates
`X`, `Y` and heights `Z`, and the cropped `Xc`, `Yc`, `Zc`. -/
structure Grids where
  X : Arr2 ℚ
  Y : Arr2 ℚ
  Z : Arr2 (Option ℚ)
  Xc : Arr2 ℚ
  Yc : Arr2 ℚ
  Zc : Arr2 (Option ℚ)

/-- Shallow embedding of the aperture-reconstruction tail of
`read_zygo_binary` (zygo.py lines 55–93), acting on a decoded
`DatResult`:
* intensity absent: the cropped grids are built from the phase array's own
  shape (`.shape` on an absent phase raises `AttributeError`), scaled by
  `lateral_res`, the Y mesh flipped by `nanmax(Y) - Y + nanmin(Y)`
  (`np.nanmax` of an empty mesh raises `ValueError`), and the full-frame
  triple aliases the cropped one;
* intensity present: the frame shape is `Z_intensity[0].shape`
  (`IndexError` on an empty bucket stack), the full-frame `Z` starts as
  all-NaN (`np.full(..., np.nan)`), `X`/`Y` are the scaled and flipped
  meshes; the source then compares `Z_intensity.shape == Z_phase.shape` —
  the 3-tuple against the 2-tuple, modelled as the `List Nat` equality
  `[d0, d1, d2] = [rows, cols]` — and on inequality writes the phase into
  `Z[p_ys : p_ys + p_height, p_xs : p_xs + p_width]` with
  `p_ys = cn_org_x`, `p_xs = cn_org_y` (the source's own assignment,
  lines 84–85), slicing the same windows of `X` and `Y` as the cropped
  coordinates. -/
def reconstruct (data : DatResult) : Except ZErr Grids := do
  match data.intensity with
  | none =>
    match data.phase with
    | none => throw ZErr.attributeError
    | some Zc => do
      let Xc0 : Arr2 ℚ := ⟨Zc.rows, Zc.cols, fun _ j => (j : ℚ)⟩
      let Yc0 : Arr2 ℚ := ⟨Zc.rows, Zc.cols, fun i _ => (i : ℚ)⟩
      let Xc := scaleArr data.meta.lateral_res Xc0
      let Yc1 := scaleArr data.meta.lateral_res Yc0
      let mx ← arrMax Yc1
      let mn ← arrMin Yc1
      let Yc : Arr2 ℚ := ⟨Yc1.rows, Yc1.cols, fun i j => mx - Yc1.val i j + mn⟩
      pure ⟨Xc, Yc, Zc, Xc, Yc, Zc⟩
  | some I => do
    if I.d0 = 0 then throw ZErr.indexError
    else
    let m := I.d1
    let n := I.d2
    let Z0 : Arr2 (Option ℚ) := ⟨m, n, fun _ _ => none⟩
    let X0 : Arr2 ℚ := ⟨m, n, fun _ j => (j : ℚ)⟩
    let Y0 : Arr2 ℚ := ⟨m, n, fun i _ => (i : ℚ)⟩
    let X := scaleArr data.meta.lateral_res X0
    let Y1 := scaleArr data.meta.lateral_res Y0
    let mx ← arrMax Y1
    let mn ← arrMin Y1
    let Y : Arr2 ℚ := ⟨m, n, fun i j => mx - Y1.val i j + mn⟩
    match data.phase with
    | none => throw ZErr.attributeError
    | some P =>
      if [I.d0, I.d1, I.d2] = [P.rows, P.cols] then
        pure ⟨X, Y, Z0, X, Y, Z0⟩
      else do
        let p_ys := data.meta.cn_org_x
        let p_xs := data.meta.cn_org_y
        let p_height := data.meta.cn_height
        let p_width := data.meta.cn_width
        let Z ← setSlice Z0 p_ys (p_ys + p_height) p_xs (p_xs + p_width) P
        let Yc := getSlice Y p_ys (p_ys + p_height) p_xs (p_xs + p_width)
        let Xc := getSlice X p_ys (p_ys + p_height) p_xs (p_xs + p_width)
        pure ⟨X, Y, Z, Xc, Yc, P⟩

/-- Height grid of a successful reconstruction (placeholder on error;
used only under success facts). -/
def reconZ (e : Except ZErr Grids) : Arr2 (Option ℚ) :=
  match e with
  | .ok g => g.Z
  | .error _ => ⟨0, 0, fun _ _ => none⟩

/-- Cropped X grid of a successful reconstruction. -/
def reconXc (e : Except ZErr Grids) : Arr2 ℚ :=
  match e with
  | .ok g => g.Xc
  | .error _ => ⟨0, 0, fun _ _ => 0⟩

/-- Error of a failed reconstruction, if any. -/
def reconErr (e : Except ZErr Grids) : Option ZErr :=
  match e with
  | .ok _ => none
  | .error z => some z

/-- `pathlib.Path(name).suffix`: the extension of the final path
component — the part from the last dot, provided that dot is neither the
first nor the last character of the component; empty otherwise. -/
def pathSuffix (name : List Char) : List Char :=
  let base := (name.reverse.takeWhile fun c => c ≠ '/').reverse
  match base.reverse.findIdx? fun c => c = '.' with
  | none => []
  | some k =>
    let i := base.length - 1 - k
    if 0 < i ∧ i < base.length - 1 then base.drop i else []

/-- Shallow embedding of `read_zygo_binary` (zygo.py lines 30–93): select
the decoder by the file-name extension — `.dat` runs `read_zygo_dat` on
the file bytes, `.datx` runs the HDF5 container reader (out of scope here,
supplied as the oracle `datx`), anything else raises `ValueError` naming
the extension — then run the aperture reconstruction on the decoded
data. -/
def read_zygo_binary (datx : List Nat → Except ZErr DatResult)
    (name : List Char) (contents : List Nat) : Except ZErr Grids := do
  let data ←
    if pathSuffix name = ".dat".toList then read_zygo_dat contents
    else if pathSuffix name = ".datx".toList then datx contents
    else throw (ZErr.valueErrorBadExt (pathSuffix name))
  reconstruct data

/-- Byte order of a multi-byte numeric header field. -/
inductive Endian where
  | be
  | le
deriving DecidableEq

/-- One multi-byte numeric header field: name, byte offset, byte width and
endianness of its `struct.unpack` call in `_read_zygo_dat_meta`. -/
structure FieldSpec where
  name : String
  off : Nat
  width : Nat
  endian : Endian
deriving DecidableEq

/-- Chunk 0 of `zygoNumericFields` (split only to keep elaboration fast). -/
def zygoNumericFieldsChunk0 : List FieldSpec := [
  ⟨"magic_number", 0, 4, .be⟩,
  ⟨"header_format", 4, 2, .be⟩,
  ⟨"header_size", 6, 4, .be⟩,
  ⟨"swinfo_type", 10, 2, .be⟩,
  ⟨"swinfo_vers_maj", 42, 2, .be⟩,
  ⟨"swinfo_vers_min", 44, 2, .be⟩,
  ⟨"swinfo_vers_bug", 46, 2, .be⟩,
  ⟨"ac_org_x", 48, 2, .be⟩,
  ⟨"ac_org_y", 50, 2, .be⟩,
  ⟨"ac_width", 52, 2, .be⟩,
  ⟨"ac_height", 54, 2, .be⟩,
  ⟨"ac_n_buckets", 56, 2, .be⟩,
  ⟨"ac_range", 58, 2, .be⟩,
  ⟨"ac_n_bytes", 60, 4, .be⟩,
  ⟨"cn_org_x", 64, 2, .be⟩,
  ⟨"cn_org_y", 66, 2, .be⟩,
  ⟨"cn_width", 68, 2, .be⟩,
  ⟨"cn_height", 70, 2, .be⟩,
  ⟨"cn_n_bytes", 72, 4, .be⟩,
  ⟨"time_stamp", 76, 4, .be⟩,
  ⟨"source", 162, 2, .be⟩,
  ⟨"scale_factor", 164, 4, .be⟩,
  ⟨"wavelength", 168, 4, .be⟩,
  ⟨"num_aperture", 172, 4, .be⟩,
  ⟨"obliquity_factor", 176, 4, .be⟩,
  ⟨"magnification", 180, 4, .be⟩,
  ⟨"lateral_res", 184, 4, .be⟩,
  ⟨"acq_type", 188, 2, .be⟩,
  ⟨"intens_avg_count", 190, 2, .be⟩,
  ⟨"ramp_cal", 192, 2, .be⟩]

/-- Chunk 1 of `zygoNumericFields` (split only to keep elaboration fast). -/
def zygoNumericFieldsChunk1 : List FieldSpec := [
  ⟨"sfac_limit", 194, 2, .be⟩,
  ⟨"ramp_gain", 196, 2, .be⟩,
  ⟨"part_thickness", 198, 4, .be⟩,
  ⟨"sw_llc", 202, 2, .be⟩,
  ⟨"target_range", 204, 4, .be⟩,
  ⟨"rad_crv_measure_seq", 208, 2, .le⟩,
  ⟨"min_mod", 210, 4, .be⟩,
  ⟨"min_mod_count", 214, 4, .be⟩,
  ⟨"phase_res", 218, 2, .be⟩,
  ⟨"min_area", 220, 4, .be⟩,
  ⟨"discon_action", 224, 2, .be⟩,
  ⟨"discon_filter", 226, 4, .be⟩,
  ⟨"connect_order", 230, 2, .be⟩,
  ⟨"sign", 232, 2, .be⟩,
  ⟨"camera_width", 234, 2, .be⟩,
  ⟨"camera_height", 236, 2, .be⟩,
  ⟨"sys_type", 238, 2, .be⟩,
  ⟨"sys_board", 240, 2, .be⟩,
  ⟨"sys_serial", 242, 2, .be⟩,
  ⟨"sys_inst_id", 244, 2, .be⟩,
  ⟨"codev_type", 298, 2, .be⟩,
  ⟨"phase_avg_count", 300, 2, .be⟩,
  ⟨"sub_sys_err", 302, 2, .be⟩,
  ⟨"refractive_index", 360, 4, .be⟩,
  ⟨"remove_tilt", 364, 2, .be⟩,
  ⟨"remove_fringes", 366, 2, .be⟩,
  ⟨"max_area", 368, 4, .be⟩,
  ⟨"setup_type", 372, 2, .be⟩,
  ⟨"wrapped", 374, 2, .be⟩,
  ⟨"pre_connect_filter", 376, 4, .be⟩]

/-- Chunk 2 of `zygoNumericFields` (split only to keep elaboration fast). -/
def zygoNumericFieldsChunk2 : List FieldSpec := [
  ⟨"wavelength_in_2", 380, 4, .be⟩,
  ⟨"wavelength_fold", 384, 2, .be⟩,
  ⟨"wavelength_in_1", 386, 4, .be⟩,
  ⟨"wavelength_in_3", 390, 4, .be⟩,
  ⟨"wavelength_in_4", 394, 4, .be⟩,
  ⟨"fda_res", 406, 2, .be⟩,
  ⟨"n_fiducials", 428, 2, .be⟩,
  ⟨"fiducials_0", 430, 4, .be⟩,
  ⟨"fiducials_1", 434, 4, .be⟩,
  ⟨"fiducials_2", 438, 4, .be⟩,
  ⟨"fiducials_3", 442, 4, .be⟩,
  ⟨"fiducials_4", 446, 4, .be⟩,
  ⟨"fiducials_5", 450, 4, .be⟩,
  ⟨"fiducials_6", 454, 4, .be⟩,
  ⟨"fiducials_7", 458, 4, .be⟩,
  ⟨"fiducials_8", 462, 4, .be⟩,
  ⟨"fiducials_9", 466, 4, .be⟩,
  ⟨"fiducials_10", 470, 4, .be⟩,
  ⟨"fiducials_11", 474, 4, .be⟩,
  ⟨"fiducials_12", 478, 4, .be⟩,
  ⟨"fiducials_13", 482, 4, .be⟩,
  ⟨"pixel_width", 486, 4, .be⟩,
  ⟨"pixel_height", 490, 4, .be⟩,
  ⟨"exit_pupil_diameter", 494, 4, .be⟩,
  ⟨"light_level_percent", 498, 4, .be⟩,
  ⟨"coords_state", 502, 4, .le⟩,
  ⟨"coords_x_pos", 506, 4, .le⟩,
  ⟨"coords_y_pos", 510, 4, .le⟩,
  ⟨"coords_z_pos", 514, 4, .le⟩,
  ⟨"coords_x_rot", 518, 4, .le⟩]

/-- Chunk 3 of `zygoNumericFields` (split only to keep elaboration fast). -/
def zygoNumericFieldsChunk3 : List FieldSpec := [
  ⟨"coords_y_rot", 522, 4, .le⟩,
  ⟨"coords_z_rot", 526, 4, .le⟩,
  ⟨"coherence_mode", 530, 2, .le⟩,
  ⟨"surface_filter", 532, 2, .le⟩,
  ⟨"alpha_part", 570, 4, .le⟩,
  ⟨"beta_part", 574, 4, .le⟩,
  ⟨"dist_part", 578, 4, .le⟩,
  ⟨"cam_split_loc_x", 582, 2, .le⟩,
  ⟨"cam_split_loc_y", 584, 2, .le⟩,
  ⟨"cam_split_trans_x", 586, 2, .le⟩,
  ⟨"cam_split_trans_y", 588, 2, .le⟩,
  ⟨"dmi_ctr_x", 642, 4, .le⟩,
  ⟨"dmi_ctr_y", 646, 4, .le⟩,
  ⟨"sph_dist_corr", 650, 2, .le⟩,
  ⟨"sph_dist_part_na", 654, 4, .le⟩,
  ⟨"sph_dist_part_radius", 658, 4, .le⟩,
  ⟨"sph_dist_cal_na", 662, 4, .le⟩,
  ⟨"sph_dist_cal_radius", 666, 4, .le⟩,
  ⟨"surface_type", 670, 2, .le⟩,
  ⟨"ac_surface_type", 672, 2, .le⟩,
  ⟨"z_pos", 674, 4, .le⟩,
  ⟨"power_multiplier", 678, 4, .le⟩,
  ⟨"focus_multiplier", 682, 4, .le⟩,
  ⟨"roc_focus_cal_factor", 686, 4, .le⟩,
  ⟨"roc_power_cal_factor", 690, 4, .le⟩,
  ⟨"ftp_left_pos", 694, 4, .le⟩,
  ⟨"ftp_right_pos", 698, 4, .le⟩,
  ⟨"ftp_pitch_pos", 702, 4, .le⟩,
  ⟨"ftp_roll_pos", 706, 4, .le⟩,
  ⟨"min_mod_percent", 710, 4, .le⟩]

/-- Chunk 4 of `zygoNumericFields` (split only to keep elaboration fast). -/
def zygoNumericFieldsChunk4 : List FieldSpec := [
  ⟨"max_intens", 714, 4, .le⟩,
  ⟨"ring_of_fire", 718, 2, .le⟩,
  ⟨"rc_distance", 722, 4, .le⟩,
  ⟨"rc_angle", 726, 4, .le⟩,
  ⟨"rc_diameter", 730, 4, .le⟩,
  ⟨"rem_fringes_mode", 734, 2, .be⟩,
  ⟨"frames_acquired", 738, 2, .le⟩,
  ⟨"cavity_type", 740, 2, .le⟩,
  ⟨"cam_frame_rate", 742, 4, .le⟩,
  ⟨"tune_range", 746, 4, .le⟩,
  ⟨"cal_pix_loc_x", 750, 2, .le⟩,
  ⟨"cal_pix_loc_y", 752, 2, .le⟩,
  ⟨"n_test_cal_pts", 754, 2, .le⟩,
  ⟨"n_ref_cal_pts", 756, 2, .le⟩,
  ⟨"test_cal_pts_0", 758, 4, .le⟩,
  ⟨"test_cal_pts_1", 762, 4, .le⟩,
  ⟨"test_cal_pts_2", 766, 4, .le⟩,
  ⟨"test_cal_pts_3", 770, 4, .le⟩,
  ⟨"ref_cal_pts_0", 774, 4, .le⟩,
  ⟨"ref_cal_pts_1", 778, 4, .le⟩,
  ⟨"ref_cal_pts_2", 782, 4, .le⟩,
  ⟨"ref_cal_pts_3", 786, 4, .le⟩,
  ⟨"test_cal_pix_opd", 790, 4, .le⟩,
  ⟨"test_ref_pix_opd", 794, 4, .le⟩,
  ⟨"flash_phase_cd_mask", 798, 4, .le⟩,
  ⟨"flash_phase_alias_mask", 802, 4, .le⟩,
  ⟨"flask_phase_filter", 806, 4, .le⟩,
  ⟨"ftpsi_res_factor", 814, 2, .le⟩]

/-- Every multi-byte numeric field read by `_read_zygo_dat_meta`
(zygo.py lines 171–360), transcribed one entry per `struct.unpack` call
with its offset, width and endianness ('>H'/'>I'/'>f' are big-endian,
'<H'/'<I'/'<f' little-endian).  Text fields and the single-byte fields
(`rc_orientation`, `ftpsi_phase_res`, `scan_direction`), which have no
byte order, are not listed. -/
def zygoNumericFields : List FieldSpec :=
  zygoNumericFieldsChunk0 ++ zygoNumericFieldsChunk1 ++ zygoNumericFieldsChunk2 ++ zygoNumericFieldsChunk3 ++ zygoNumericFieldsChunk4

/-- Bind on a successful `Except` step. -/
@[simp] theorem zbind_ok {α β : Type} (a : α) (f : α → Except ZErr β) :
    (Except.ok a >>= f : Except ZErr β) = f a := rfl

/-- A big-endian u16 read succeeds when the buffer covers it. -/
theorem rdUB16_ok {buf : List Nat} {off : Nat} (h : off + 2 ≤ buf.length) :
    rdUB16 buf off = .ok (u16beAt buf off) := by
  simp [rdUB16, h]

/-- A little-endian u16 read succeeds when the buffer covers it. -/
theorem rdUL16_ok {buf : List Nat} {off : Nat} (h : off + 2 ≤ buf.length) :
    rdUL16 buf off = .ok (u16leAt buf off) := by
  simp [rdUL16, h]

/-- A big-endian u32 read succeeds when the buffer covers it. -/
theorem rdUB32_ok {buf : List Nat} {off : Nat} (h : off + 4 ≤ buf.length) :
    rdUB32 buf off = .ok (u32beAt buf off) := by
  simp [rdUB32, h]

/-- A little-endian u32 read succeeds when the buffer covers it. -/
theorem rdUL32_ok {buf : List Nat} {off : Nat} (h : off + 4 ≤ buf.length) :
    rdUL32 buf off = .ok (u32leAt buf off) := by
  simp [rdUL32, h]

/-- A big-endian float read succeeds when the buffer covers it. -/
theorem rdFB32_ok {buf : List Nat} {off : Nat} (h : off + 4 ≤ buf.length) :
    rdFB32 buf off = .ok (f32toRat (u32beAt buf off)) := by
  simp [rdFB32, h]

/-- A little-endian float read succeeds when the buffer covers it. -/
theorem rdFL32_ok {buf : List Nat} {off : Nat} (h : off + 4 ≤ buf.length) :
    rdFL32 buf off = .ok (f32toRat (u32leAt buf off)) := by
  simp [rdFL32, h]

/-- A byte read succeeds when the buffer covers it. -/
theorem rdU8_ok {buf : List Nat} {off : Nat} (h : off + 1 ≤ buf.length) :
    rdU8 buf off = .ok (byteAt buf off) := by
  simp [rdU8, h]

/-- A text-field read succeeds when the slice is valid UTF-8. -/
theorem rdText_ok {buf : List Nat} {a b : Nat}
    (h : utf8Valid (textSlice buf a b) = true) :
    rdText buf a b = .ok (rstripZeros (textSlice buf a b)) := by
  simp [rdText, h]

/-- A char read succeeds when the buffer covers it and the byte is a valid
one-byte UTF-8 sequence. -/
theorem rdChar_ok {buf : List Nat} {off : Nat} (h : off + 1 ≤ buf.length)
    (h2 : utf8Valid (textSlice buf off (off + 1)) = true) :
    rdChar buf off = .ok (rstripZeros (textSlice buf off (off + 1))) := by
  simp [rdChar, h, h2]

/-- All twelve text-field byte ranges of the header decode as UTF-8. -/
def textFieldsOk (buf : List Nat) : Prop :=
  utf8Valid (textSlice buf 12 42) = true ∧ utf8Valid (textSlice buf 80 162) = true
  ∧ utf8Valid (textSlice buf 246 258) = true ∧ utf8Valid (textSlice buf 258 298) = true
  ∧ utf8Valid (textSlice buf 320 360) = true ∧ utf8Valid (textSlice buf 398 406) = true
  ∧ utf8Valid (textSlice buf 408 428) = true ∧ utf8Valid (textSlice buf 534 562) = true
  ∧ utf8Valid (textSlice buf 562 570) = true ∧ utf8Valid (textSlice buf 590 614) = true
  ∧ utf8Valid (textSlice buf 614 638) = true ∧ utf8Valid (textSlice buf 721 722) = true

instance (buf : List Nat) : Decidable (textFieldsOk buf) := by
  unfold textFieldsOk
  infer_instance

set_option maxHeartbeats 2000000 in
set_option maxRecDepth 16384 in
/-- C1 (amended): header decoding succeeds for every buffer of length at
least 834 whose leading (magic, format, size) triple is one of the three
recognized combinations and whose text-field byte ranges are valid UTF-8;
it fails with the `FormatError` (`ValueError`) for every buffer of length
at least 10 whose leading triple is any other combination.  (The original
claim quantified over every buffer: a buffer shorter than the fixed field
region fails with `struct.error` even when its triple is valid, see the
counterexample.) -/
theorem zygoC1_theorem (buf : List Nat) :
    (834 ≤ buf.length → textFieldsOk buf →
      validTripleB (u32beAt buf 0) (u16beAt buf 4) (u32beAt buf 6) = true →
      isOkE (read_zygo_dat_meta buf) = true)
    ∧ (10 ≤ buf.length →
      validTripleB (u32beAt buf 0) (u16beAt buf 4) (u32beAt buf 6) = false →
      read_zygo_dat_meta buf = .error ZErr.valueErrorTriple
      ∧ IsFormatError ZErr.valueErrorTriple = true) := by
  constructor
  · intro hlen htext htr
    obtain ⟨t1, t2, t3, t4, t5, t6, t7, t8, t9, t10, t11, t12⟩ := htext
    unfold read_zygo_dat_meta
    simp (disch := first | assumption | omega) only
      [rdUB16_ok, rdUL16_ok, rdUB32_ok, rdUL32_ok, rdFB32_ok, rdFL32_ok,
       rdU8_ok, rdText_ok, rdChar_ok, zbind_ok]
    rw [if_neg (not_not_intro htr)]
    rfl
  · intro hlen hbad
    unfold read_zygo_dat_meta
    simp (disch := omega) only [rdUB16_ok, rdUB32_ok, zbind_ok]
    rw [if_pos]
    · exact ⟨rfl, rfl⟩
    · simp [hbad]

/-- A run of zero bytes. -/
def zeros (n : Nat) : List Nat := List.replicate n 0

/-- A well-formed 834-byte header buffer: valid first triple
(0x881B036F, 1, 834), all other bytes zero. -/
def bufHdr834 : List Nat :=
  [0x88, 0x1B, 0x03, 0x6F, 0, 1, 0, 0, 0x03, 0x42] ++ zeros 824

/-- A 10-byte buffer whose leading triple is valid but which ends right
after the triple. -/
def bufTriple10 : List Nat := [0x88, 0x1B, 0x03, 0x6F, 0, 1, 0, 0, 0x03, 0x42]

/-- A 10-byte all-zero buffer: triple (0, 0, 0), not recognized. -/
def bufBad10 : List Nat := zeros 10

/-- C1 counterexample: a concrete buffer whose leading 10 bytes decode to
the recognized triple (0x881B036F, 1, 834) on which header decoding does
not succeed — it fails with `struct.error` (the buffer ends after the
triple) — refuting the original claim's success half. -/
theorem zygoC1_counterexample :
    validTripleB (u32beAt bufTriple10 0) (u16beAt bufTriple10 4) (u32beAt bufTriple10 6) = true
    ∧ read_zygo_dat_meta bufTriple10 = .error ZErr.structError := by
  exact ⟨by decide, rfl⟩

/-- C1 witness: the amended theorem applied to the concrete well-formed
834-byte header (success half) and to the all-zero 10-byte buffer
(failure half). -/
theorem zygoC1_witness :
    isOkE (read_zygo_dat_meta bufHdr834) = true
    ∧ (read_zygo_dat_meta bufBad10 = .error ZErr.valueErrorTriple
       ∧ IsFormatError ZErr.valueErrorTriple = true) :=
  ⟨(zygoC1_theorem bufHdr834).1 (by decide) (by decide) (by decide),
   (zygoC1_theorem bufBad10).2 (by decide) (by decide)⟩

/-- C4 counterexample: `rad_crv_measure_seq` sits at byte offset 208,
below 502, yet is decoded little-endian (`struct.unpack('<H', ...)`,
zygo.py line 224), refuting the claim that every numeric field below
offset 502 is big-endian. -/
theorem zygoC4_counterexample :
    (⟨"rad_crv_measure_seq", 208, 2, Endian.le⟩ : FieldSpec) ∈ zygoNumericFields
    ∧ 208 < 502 ∧ Endian.le ≠ Endian.be := by
  refine ⟨by decide, by decide, by decide⟩

/-- C4 (amended): every multi-byte numeric header field below byte offset
502 is decoded big-endian except `rad_crv_measure_seq` (offset 208,
little-endian), and every multi-byte numeric field at offset 502 or above
is decoded little-endian except `rem_fringes_mode` (offset 734,
big-endian). -/
theorem zygoC4_theorem :
    (∀ f ∈ zygoNumericFields,
      (f.off < 502 → (f.endian = Endian.be ∨ f.name = "rad_crv_measure_seq"))
      ∧ (502 ≤ f.off → (f.endian = Endian.le ∨ f.name = "rem_fringes_mode")))
    ∧ (⟨"rad_crv_measure_seq", 208, 2, Endian.le⟩ : FieldSpec) ∈ zygoNumericFields
    ∧ (⟨"rem_fringes_mode", 734, 2, Endian.be⟩ : FieldSpec) ∈ zygoNumericFields := by
  refine ⟨?_, by decide, by decide⟩
  intro f hf
  have h : zygoNumericFields.all (fun f =>
      decide ((f.off < 502 → (f.endian = Endian.be ∨ f.name = "rad_crv_measure_seq"))
        ∧ (502 ≤ f.off → (f.endian = Endian.le ∨ f.name = "rem_fringes_mode")))) = true := by
    decide
  exact of_decide_eq_true (List.all_eq_true.mp h f hf)

/-- A sample field for the C4 witness. -/
def fieldCoordsState : FieldSpec := ⟨"coords_state", 502, 4, Endian.le⟩

/-- C4 witness: the amended theorem applied to the concrete field
`coords_state` (offset 502, little-endian) of the table. -/
theorem zygoC4_witness :
    fieldCoordsState ∈ zygoNumericFields
    ∧ (fieldCoordsState.off < 502 →
        (fieldCoordsState.endian = Endian.be ∨ fieldCoordsState.name = "rad_crv_measure_seq"))
    ∧ (502 ≤ fieldCoordsState.off →
        (fieldCoordsState.endian = Endian.le ∨ fieldCoordsState.name = "rem_fringes_mode")) :=
  ⟨by decide, (zygoC4_theorem.1 fieldCoordsState (by decide)).1,
    (zygoC4_theorem.1 fieldCoordsState (by decide)).2⟩

/-- C5 (confirmed): for every raw phase integer array and every valid
phase-resolution code in {0, 1, 2}, calibration succeeds and replaces
exactly the samples that are at least the sentinel `ZYGO_INVALID_PHASE =
2147483640` with the missing-value marker: entry `i` of the output is
`none` if and only if raw sample `i` is `≥` the sentinel. -/
theorem zygoC5_theorem (raw : List Int) (s o w : ℚ) (res : Nat)
    (hres : res = 0 ∨ res = 1 ∨ res = 2) :
    isOkE (calibrate raw s o w res) = true
    ∧ ∀ out, calibrate raw s o w res = .ok out →
      out.length = raw.length
      ∧ ∀ i, i < raw.length →
        (out.getD i none = none ↔ ZYGO_INVALID_PHASE ≤ raw.getD i 0) := by
  have hd : ∃ d, ZYGO_PHASE_RES_FACTORS res = some d := by
    rcases hres with h | h | h <;> subst h <;> exact ⟨_, rfl⟩
  obtain ⟨d, hd⟩ := hd
  have hcal : calibrate raw s o w res =
      .ok ((raw.map fun v => if ZYGO_INVALID_PHASE ≤ v then none else some ((v : ℚ))).map
        (Option.map fun x => x * (s * o * w / (d : ℚ)))) := by
    unfold calibrate
    rw [hd]
    rfl
  refine ⟨by rw [hcal]; rfl, ?_⟩
  intro out hout
  rw [hcal] at hout
  cases hout
  constructor
  · simp
  · intro i hi
    cases hq : raw.get? i with
    | none =>
      have := List.get?_eq_none.mp hq
      omega
    | some v =>
      have hraw : raw.getD i 0 = v := by
        rw [List.getD_eq_get?, hq]
        rfl
      rw [List.getD_eq_get?, List.get?_map, List.get?_map, hq, hraw]
      by_cases hs : ZYGO_INVALID_PHASE ≤ v
      · simp [hs]
      · simp [hs]

/-- C5 witness: the theorem applied to the concrete raw array
[2147483640, 2147483639, 0] (one sentinel-valued sample, one just below
the sentinel, one zero) with unit calibration factors and resolution
code 0. -/
theorem zygoC5_witness :
    ((0 : Nat) = 0 ∨ (0 : Nat) = 1 ∨ (0 : Nat) = 2)
    ∧ isOkE (calibrate [2147483640, 2147483639, 0] 1 1 1 0) = true
    ∧ ∀ out, calibrate [2147483640, 2147483639, 0] 1 1 1 0 = .ok out →
      out.length = ([2147483640, 2147483639, 0] : List Int).length
      ∧ ∀ i, i < ([2147483640, 2147483639, 0] : List Int).length →
        (out.getD i none = none
          ↔ ZYGO_INVALID_PHASE ≤ ([2147483640, 2147483639, 0] : List Int).getD i 0) :=
  ⟨Or.inl rfl,
    (zygoC5_theorem [2147483640, 2147483639, 0] 1 1 1 0 (Or.inl rfl)).1,
    (zygoC5_theorem [2147483640, 2147483639, 0] 1 1 1 0 (Or.inl rfl)).2⟩

/-- C6 (confirmed): for every raw sample not replaced by the marker, the
calibrated value is the sample times `scale_factor * obliquity_factor *
wavelength` divided by the divisor that the table {0 → 4096, 1 → 32768,
2 → 131072} assigns to the header's phase-resolution code; a code outside
the table makes calibration fail with the `FormatError` (`KeyError`). -/
theorem zygoC6_theorem (raw : List Int) (s o w : ℚ) (res : Nat) :
    (∀ d, ZYGO_PHASE_RES_FACTORS res = some d →
      calibrate raw s o w res =
        .ok (raw.map fun v => if ZYGO_INVALID_PHASE ≤ v then none
          else some ((v : ℚ) * s * o * w / (d : ℚ))))
    ∧ (res ≠ 0 → res ≠ 1 → res ≠ 2 →
      calibrate raw s o w res = .error ZErr.keyErrorPhaseRes
      ∧ IsFormatError ZErr.keyErrorPhaseRes = true) := by
  constructor
  · intro d hd
    unfold calibrate
    rw [hd]
    show Except.ok _ = _
    rw [List.map_map]
    have hfun : ((Option.map fun x => x * (s * o * w / (d : ℚ))) ∘ fun v : Int =>
        if ZYGO_INVALID_PHASE ≤ v then none else some ((v : ℚ))) =
        fun v : Int => if ZYGO_INVALID_PHASE ≤ v then none
          else some ((v : ℚ) * s * o * w / (d : ℚ)) := by
      funext v
      by_cases hs : ZYGO_INVALID_PHASE ≤ v
      · simp [hs]
      · simp only [Function.comp_apply, if_neg hs]
        show some ((v : ℚ) * (s * o * w / (d : ℚ))) = some ((v : ℚ) * s * o * w / (d : ℚ))
        congr 1
        ring
    rw [hfun]
  · intro h0 h1 h2
    have hnone : ZYGO_PHASE_RES_FACTORS res = none := by
      unfold ZYGO_PHASE_RES_FACTORS
      simp [h0, h1, h2]
    unfold calibrate
    rw [hnone]
    exact ⟨rfl, rfl⟩

/-- C6 witness: the theorem applied to the concrete raw array
[5, 2147483640] with factors 2, 3, 5 — code 0 selects divisor 4096 and
scales the surviving sample to 5·2·3·5/4096 — and to code 9, which is a
`FormatError`. -/
theorem zygoC6_witness :
    calibrate [5, 2147483640] 2 3 5 0 = .ok [some ((5 : ℚ) * 2 * 3 * 5 / 4096), none]
    ∧ calibrate [5] 2 3 5 9 = .error ZErr.keyErrorPhaseRes
    ∧ IsFormatError ZErr.keyErrorPhaseRes = true := by
  refine ⟨?_, ((zygoC6_theorem [5] 2 3 5 9).2 (by decide) (by decide) (by decide)).1,
    ((zygoC6_theorem [5] 2 3 5 9).2 (by decide) (by decide) (by decide)).2⟩
  have h := (zygoC6_theorem [5, 2147483640] 2 3 5 0).1 4096 (by decide)
  rw [h]
  rfl

/-- C10 (confirmed): for every file name whose extension is neither `.dat`
nor `.datx`, `read_zygo_binary` fails with the `ValueError` that names the
extension — uniformly in the file contents and in the `.datx` container
reader, so nothing is opened or decoded. -/
theorem zygoC10_theorem (datx : List Nat → Except ZErr DatResult)
    (name : List Char) (contents : List Nat)
    (h1 : pathSuffix name ≠ ".dat".toList) (h2 : pathSuffix name ≠ ".datx".toList) :
    read_zygo_binary datx name contents = .error (ZErr.valueErrorBadExt (pathSuffix name)) := by
  unfold read_zygo_binary
  rw [if_neg h1, if_neg h2]
  rfl

/-- C10 witness: the theorem applied to the concrete name "a.txt" (suffix
".txt"), arbitrary concrete contents and a dummy container reader. -/
theorem zygoC10_witness :
    pathSuffix ("a.txt".toList) ≠ ".dat".toList
    ∧ pathSuffix ("a.txt".toList) ≠ ".datx".toList
    ∧ read_zygo_binary (fun _ => .error ZErr.structError) ("a.txt".toList) [1, 2, 3]
      = .error (ZErr.valueErrorBadExt (pathSuffix ("a.txt".toList))) :=
  ⟨by decide, by decide,
    zygoC10_theorem (fun _ => .error ZErr.structError) "a.txt".toList [1, 2, 3]
      (by decide) (by decide)⟩

/-- Header for the C2 failing input: crop origin `cn_org_x = 1`,
`cn_org_y = 0`, extent 1×1, frame 2×2, `lateral_res = 1`. -/
def metaC2 : ZygoMeta := ⟨834, 2, 2, 1, 1, 0, 1, 1, 0, 0, 0, 1, 0⟩

/-- Calibrated 1×1 phase array holding 7 for the C2 failing input. -/
def phaseC2 : Arr2 (Option ℚ) := ⟨1, 1, fun _ _ => some 7⟩

/-- 1-bucket 2×2 intensity stack for the C2 failing input. -/
def intensC2 : Arr3 := ⟨1, 2, 2, [0, 0, 0, 0]⟩

/-- The C2 failing input: a decoded measurement with both intensity and
phase present and differing shapes. -/
def inputC2 : DatResult := ⟨metaC2, some intensC2, some phaseC2⟩

/-- C2 (code bug, evaluation at the failing input): the source assigns
`p_ys = cn_org_x` and `p_xs = cn_org_y` (zygo.py lines 84–85), pairing the
x-origin with the row axis and the height extent, so on `inputC2`
(`cn_org_x = 1`, `cn_org_y = 0`) the phase value 7 lands at full-frame
position (1, 0) and position (0, 1) stays at the missing-value marker —
whereas the claim (and spec §4.4) puts the sub-window rows at `cn_org_y`
and columns at `cn_org_x`, i.e. the value at (0, 1) and the marker at
(1, 0); the cropped coordinate windows are sliced at the same swapped
origin. -/
theorem zygoC2_theorem :
    isOkE (reconstruct inputC2) = true
    ∧ (reconZ (reconstruct inputC2)).val 1 0 = some 7
    ∧ (reconZ (reconstruct inputC2)).val 0 1 = none := by
  refine ⟨by decide, by decide, by decide⟩

/-- Header for the C3 failing input: crop extent 2×2 equal to the frame
shape, crop origin `cn_org_x = 1`. -/
def metaC3 : ZygoMeta := ⟨834, 2, 2, 1, 1, 0, 2, 2, 0, 0, 0, 1, 0⟩

/-- Calibrated 2×2 phase array for the C3 failing input, its shape equal
to the intensity stack's per-bucket frame shape. -/
def phaseC3 : Arr2 (Option ℚ) := ⟨2, 2, fun _ _ => some 5⟩

/-- 1-bucket 2×2 intensity stack for the C3 failing input. -/
def intensC3 : Arr3 := ⟨1, 2, 2, [0, 0, 0, 0]⟩

/-- The C3 failing input: phase shape (2, 2) equals the per-bucket frame
shape (2, 2). -/
def inputC3 : DatResult := ⟨metaC3, some intensC3, some phaseC3⟩

/-- C3 (code bug, evaluation at the failing input): the source compares
`Z_intensity.shape == Z_phase.shape` (zygo.py line 81) — the 3-tuple
(1, 2, 2) against the 2-tuple (2, 2), never equal — instead of the
per-bucket frame shape `Z_intensity[0].shape` it uses seven lines above,
so the claim's "cropped equals full-frame" branch is dead code.  On
`inputC3`, whose phase shape equals the frame shape as the claim requires,
the code falls into the crop-embedding branch and dies with the numpy
broadcast `ValueError` (window `Z[1:3, 0:2]` clips to one row, the 2×2
phase does not broadcast), instead of returning cropped = full-frame. -/
theorem zygoC3_theorem :
    phaseC3.rows = intensC3.d1 ∧ phaseC3.cols = intensC3.d2
    ∧ reconErr (reconstruct inputC3) = some ZErr.broadcastError := by
  refine ⟨by decide, by decide, by decide⟩

/-- Header for the C9 counterexample: crop origin `cn_org_y = 2`, extent
1×1, frame 2×2, so `cn_org_y + cn_height = 3` exceeds the frame height. -/
def metaC9 : ZygoMeta := ⟨834, 2, 2, 1, 0, 2, 1, 1, 0, 0, 0, 1, 0⟩

/-- Calibrated 1×1 phase array for the C9 counterexample. -/
def phaseC9 : Arr2 (Option ℚ) := ⟨1, 1, fun _ _ => some 3⟩

/-- 1-bucket 2×2 intensity stack for the C9 counterexample. -/
def intensC9 : Arr3 := ⟨1, 2, 2, [0, 0, 0, 0]⟩

/-- The C9 counterexample input: the crop window, as paired by the claim,
extends past the full frame. -/
def inputC9 : DatResult := ⟨metaC9, some intensC9, some phaseC9⟩

/-- C9 counterexample: on `inputC9` the crop origin plus extent exceeds
the full-frame shape (`cn_org_y + cn_height = 3 > 2` and also
`cn_org_y + cn_width = 3 > 2`), yet the operation succeeds instead of
failing with a `FormatError`: the out-of-range dimension has extent 1, the
clamped target window is empty, and numpy silently broadcasts the size-1
source onto it, writing nothing. -/
theorem zygoC9_counterexample :
    intensC9.d1 < metaC9.cn_org_y + metaC9.cn_height
    ∧ intensC9.d2 < metaC9.cn_org_y + metaC9.cn_width
    ∧ isOkE (reconstruct inputC9) = true := by
  refine ⟨by decide, by decide, by decide⟩

/-- Bind on a failed `Except` step. -/
@[simp] theorem zbind_err {α β : Type} (e : ZErr) (f : α → Except ZErr β) :
    (Except.error e >>= f : Except ZErr β) = Except.error e := rfl

set_option maxHeartbeats 1000000 in
/-- C9 (amended): with intensity present (non-degenerate stack) and phase
present with the header-declared crop shape, whenever the crop window —
as the code pairs it, rows `[cn_org_x, cn_org_x + cn_height)`, columns
`[cn_org_y, cn_org_y + cn_width)` — overruns the full frame in a
dimension whose extent is at least 2, the reconstruction fails with the
broadcast `FormatError` before writing anything, and no partially
written arrays are returned; an overrun in a dimension of extent 1 is
instead silently clipped (see the counterexample). -/
theorem zygoC9_theorem (data : DatResult) (I : Arr3) (P : Arr2 (Option ℚ))
    (hI : data.intensity = some I) (hP : data.phase = some P)
    (hd0 : 0 < I.d0) (hd1 : 0 < I.d1) (hd2 : 0 < I.d2)
    (hrows : P.rows = data.meta.cn_height) (hcols : P.cols = data.meta.cn_width)
    (hover : (I.d1 < data.meta.cn_org_x + data.meta.cn_height ∧ 2 ≤ data.meta.cn_height)
      ∨ (I.d2 < data.meta.cn_org_y + data.meta.cn_width ∧ 2 ≤ data.meta.cn_width)) :
    reconstruct data = .error ZErr.broadcastError
    ∧ IsFormatError ZErr.broadcastError = true := by
  refine ⟨?_, rfl⟩
  obtain ⟨mx, hmx⟩ : ∃ q, arrMax (scaleArr data.meta.lateral_res
      ⟨I.d1, I.d2, fun i _ => (i : ℚ)⟩) = Except.ok q := by
    unfold arrMax
    rw [if_neg]
    · exact ⟨_, rfl⟩
    · unfold scaleArr
      simp only [not_or]
      omega
  obtain ⟨mn, hmn⟩ : ∃ q, arrMin (scaleArr data.meta.lateral_res
      ⟨I.d1, I.d2, fun i _ => (i : ℚ)⟩) = Except.ok q := by
    unfold arrMin
    rw [if_neg]
    · exact ⟨_, rfl⟩
    · unfold scaleArr
      simp only [not_or]
      omega
  have hslice : setSlice (⟨I.d1, I.d2, fun _ _ => none⟩ : Arr2 (Option ℚ))
      data.meta.cn_org_x (data.meta.cn_org_x + data.meta.cn_height)
      data.meta.cn_org_y (data.meta.cn_org_y + data.meta.cn_width) P
      = Except.error ZErr.broadcastError := by
    unfold setSlice
    rw [if_neg]
    dsimp only
    intro ⟨hrok, hcok⟩
    rcases hover with ⟨hov, hext⟩ | ⟨hov, hext⟩
    · rcases hrok with h | h <;> omega
    · rcases hcok with h | h <;> omega
  unfold reconstruct
  rw [hI, hP]
  dsimp only
  rw [if_neg (by omega : ¬ I.d0 = 0)]
  rw [hmx]
  simp only [zbind_ok]
  rw [hmn]
  simp only [zbind_ok]
  rw [if_neg (by simp : ¬ ([I.d0, I.d1, I.d2] = [P.rows, P.cols]))]
  rw [hslice]
  simp only [zbind_err]

/-- Header for the C9 witness: crop origin `cn_org_x = 1`, extent 2×2,
frame 2×2 — the row window [1, 3) overruns the frame height 2 with extent
2. -/
def metaC9w : ZygoMeta := ⟨834, 2, 2, 1, 1, 0, 2, 2, 0, 0, 0, 1, 0⟩

/-- Calibrated 2×2 phase array for the C9 witness. -/
def phaseC9w : Arr2 (Option ℚ) := ⟨2, 2, fun _ _ => some 4⟩

/-- 1-bucket 2×2 intensity stack for the C9 witness. -/
def intensC9w : Arr3 := ⟨1, 2, 2, [0, 0, 0, 0]⟩

/-- The C9 witness input. -/
def inputC9w : DatResult := ⟨metaC9w, some intensC9w, some phaseC9w⟩

/-- C9 witness: the amended theorem applied to the concrete measurement
whose row window [1, 3) of extent 2 overruns the 2-row frame, failing
with the broadcast `FormatError`. -/
theorem zygoC9_witness :
    inputC9w.intensity = some intensC9w
    ∧ inputC9w.phase = some phaseC9w
    ∧ 0 < intensC9w.d0 ∧ 0 < intensC9w.d1 ∧ 0 < intensC9w.d2
    ∧ phaseC9w.rows = inputC9w.meta.cn_height
    ∧ phaseC9w.cols = inputC9w.meta.cn_width
    ∧ intensC9w.d1 < inputC9w.meta.cn_org_x + inputC9w.meta.cn_height
    ∧ 2 ≤ inputC9w.meta.cn_height
    ∧ reconstruct inputC9w = .error ZErr.broadcastError
    ∧ IsFormatError ZErr.broadcastError = true := by
  refine ⟨rfl, rfl, by decide, by decide, by decide, by decide, by decide,
    by decide, by decide, ?_, rfl⟩
  exact (zygoC9_theorem inputC9w intensC9w phaseC9w rfl rfl (by decide) (by decide)
    (by decide) (by decide) (by decide) (Or.inl ⟨by decide, by decide⟩)).1

/-- An 834-byte header buffer declaring a 1×1 single-bucket intensity
region (2 payload bytes) and no phase region, with no payload bytes after
the header: the declared intensity region extends past the buffer end. -/
def bufC7 : List Nat :=
  [0x88, 0x1B, 0x03, 0x6F, 0, 1, 0, 0, 0x03, 0x42] ++ zeros 42
    ++ [0, 1, 0, 1] ++ zeros 778

/-- An 834-byte header buffer declaring no intensity region and a 1×1
phase region (4 payload bytes), with no payload bytes after the header:
the declared phase region extends past the buffer end. -/
def bufC7p : List Nat :=
  [0x88, 0x1B, 0x03, 0x6F, 0, 1, 0, 0, 0x03, 0x42] ++ zeros 58
    ++ [0, 1, 0, 1] ++ zeros 762

/-- Meta accessor on a header-decode outcome (placeholder on error). -/
def okHeaderMeta (e : Except ZErr ZygoMeta) : ZygoMeta :=
  match e with
  | .ok m => m
  | .error _ => ⟨0, 0, 0, 0, 0, 0, 0, 0, 0, 0, 0, 0, 0⟩

/-- C7 counterexample: `bufC7` declares a non-zero intensity region that
extends past the end of the buffer, and decoding raises the
`np.frombuffer` `ValueError` instead of reporting intensity as absent —
there is no try/except around the intensity read of `read_zygo_dat`
(zygo.py lines 120–124). -/
theorem zygoC7_counterexample :
    intensSize (okHeaderMeta (read_zygo_dat_meta bufC7)) = 1
    ∧ bufC7.length <
        (okHeaderMeta (read_zygo_dat_meta bufC7)).header_size
          + 2 * intensSize (okHeaderMeta (read_zygo_dat_meta bufC7))
    ∧ read_zygo_dat bufC7 = .error ZErr.bufferTooSmall := by
  refine ⟨by decide, by decide, rfl⟩

/-- Bind on a pure `Except` step. -/
@[simp] theorem zbind_pure {α β : Type} (a : α) (f : α → Except ZErr β) :
    ((pure a : Except ZErr α) >>= f) = f a := rfl

/-- C7 (amended): a non-zero intensity region extending past the buffer
end makes `.dat` decoding fail with the buffer `ValueError` — intensity
is not downgraded to absent — and a phase region extending past the
buffer end is likewise fatal. -/
theorem zygoC7_theorem (buf : List Nat) (m : ZygoMeta)
    (hm : read_zygo_dat_meta buf = .ok m) :
    (intensSize m > 0 → buf.length < m.header_size + 2 * intensSize m →
      read_zygo_dat buf = .error ZErr.bufferTooSmall)
    ∧ ((intensSize m = 0 ∨ m.header_size + 2 * intensSize m ≤ buf.length) →
      m.cn_width * m.cn_height > 0 →
      buf.length < m.header_size + intensSize m * 2 + 4 * (m.cn_width * m.cn_height) →
      read_zygo_dat buf = .error ZErr.bufferTooSmall) := by
  constructor
  · intro hpos hlen
    unfold read_zygo_dat
    rw [hm]
    simp only [zbind_ok]
    rw [if_pos hpos]
    unfold fromBufferU16
    rw [if_neg (by omega)]
    rfl
  · intro hint hppos hplen
    unfold read_zygo_dat
    rw [hm]
    simp only [zbind_ok]
    rcases hint with hz | hok
    · rw [if_neg (by omega)]
      simp only [zbind_pure]
      rw [if_pos hppos]
      unfold fromBufferI32BE
      rw [if_neg (by omega)]
      rfl
    · by_cases hpos : intensSize m > 0
      · rw [if_pos hpos]
        unfold fromBufferU16
        rw [if_pos (by omega)]
        simp only [zbind_ok, zbind_pure]
        rw [if_pos hppos]
        unfold fromBufferI32BE
        rw [if_neg (by omega)]
        rfl
      · rw [if_neg hpos]
        simp only [zbind_pure]
        rw [if_pos hppos]
        unfold fromBufferI32BE
        rw [if_neg (by omega)]
        rfl

/-- The header decoded from `bufC7` (float fields written as their
decoded bit patterns). -/
def metaC7 : ZygoMeta :=
  ⟨834, 1, 1, 0, 0, 0, 0, 0, f32toRat 0, f32toRat 0, f32toRat 0, f32toRat 0, 0⟩

/-- The header decoded from `bufC7p`. -/
def metaC7p : ZygoMeta :=
  ⟨834, 0, 0, 0, 0, 0, 1, 1, f32toRat 0, f32toRat 0, f32toRat 0, f32toRat 0, 0⟩

/-- C7 witness: the amended theorem applied to the truncated-intensity
buffer `bufC7` (first half) and the truncated-phase buffer `bufC7p`
(second half). -/
theorem zygoC7_witness :
    read_zygo_dat_meta bufC7 = .ok metaC7
    ∧ intensSize metaC7 > 0
    ∧ bufC7.length < metaC7.header_size + 2 * intensSize metaC7
    ∧ read_zygo_dat bufC7 = .error ZErr.bufferTooSmall
    ∧ read_zygo_dat_meta bufC7p = .ok metaC7p
    ∧ intensSize metaC7p = 0
    ∧ metaC7p.cn_width * metaC7p.cn_height > 0
    ∧ bufC7p.length < metaC7p.header_size + intensSize metaC7p * 2
        + 4 * (metaC7p.cn_width * metaC7p.cn_height)
    ∧ read_zygo_dat bufC7p = .error ZErr.bufferTooSmall := by
  refine ⟨rfl, by decide, by decide, ?_, rfl, by decide, by decide, by decide, ?_⟩
  · exact (zygoC7_theorem bufC7 metaC7 rfl).1 (by decide) (by decide)
  · exact (zygoC7_theorem bufC7p metaC7p rfl).2 (Or.inl (by decide)) (by decide) (by decide)

/-- Row-major 2-D index bound: `(i, j)` inside an `H × W` grid lies below
`W * H` in the flat buffer. -/
theorem idx2_lt {i j H W : Nat} (hi : i < H) (hj : j < W) : i * W + j < W * H :=
  calc i * W + j < i * W + W := Nat.add_lt_add_left hj _
    _ = (i + 1) * W := by ring
    _ ≤ H * W := Nat.mul_le_mul_right W (Nat.succ_le_of_lt hi)
    _ = W * H := Nat.mul_comm H W

/-- Row-major 3-D index bound: `(b, y, x)` inside a `B × H × W` stack lies
below `W * H * B` in the flat buffer. -/
theorem idx3_lt {b y x B H W : Nat} (hb : b < B) (hy : y < H) (hx : x < W) :
    (b * H + y) * W + x < W * H * B := by
  have h1 : b * H + y < H * B :=
    calc b * H + y < b * H + H := Nat.add_lt_add_left hy _
      _ = (b + 1) * H := by ring
      _ ≤ B * H := Nat.mul_le_mul_right H (Nat.succ_le_of_lt hb)
      _ = H * B := Nat.mul_comm B H
  calc (b * H + y) * W + x < (b * H + y) * W + W := Nat.add_lt_add_left hx _
    _ = (b * H + y + 1) * W := by ring
    _ ≤ (H * B) * W := Nat.mul_le_mul_right W (Nat.succ_le_of_lt h1)
    _ = W * H * B := by ring

/-- In-range lookup into a `List.ofFn` buffer. -/
theorem getOfFn {α : Type} {n : Nat} (f : Fin n → α) (k : Nat) (hk : k < n) :
    (List.ofFn f).get? k = some (f ⟨k, hk⟩) := by
  rw [List.get?_ofFn]
  simp [List.ofFnNthVal, hk]

/-- `np.frombuffer` u16 success form. -/
theorem fromBufferU16_ok {buf : List Nat} {off count : Nat}
    (h : off + 2 * count ≤ buf.length) :
    fromBufferU16 buf off count
      = .ok (List.ofFn fun i : Fin count => u16leAt buf (off + 2 * (i : Nat))) := by
  unfold fromBufferU16
  rw [if_pos h]

/-- `np.frombuffer` u16 failure form. -/
theorem fromBufferU16_err {buf : List Nat} {off count : Nat}
    (h : ¬ off + 2 * count ≤ buf.length) :
    fromBufferU16 buf off count = .error ZErr.bufferTooSmall := by
  unfold fromBufferU16
  rw [if_neg h]

/-- `np.frombuffer` i32 success form. -/
theorem fromBufferI32BE_ok {buf : List Nat} {off count : Nat}
    (h : off + 4 * count ≤ buf.length) :
    fromBufferI32BE buf off count
      = .ok (List.ofFn fun i : Fin count => i32beAt buf (off + 4 * (i : Nat))) := by
  unfold fromBufferI32BE
  rw [if_pos h]

/-- `np.frombuffer` i32 failure form. -/
theorem fromBufferI32BE_err {buf : List Nat} {off count : Nat}
    (h : ¬ off + 4 * count ≤ buf.length) :
    fromBufferI32BE buf off count = .error ZErr.bufferTooSmall := by
  unfold fromBufferI32BE
  rw [if_neg h]

/-- Calibration success form (recognized resolution code). -/
theorem calibrate_ok {raw : List Int} {s o w : ℚ} {res d : Nat}
    (hfac : ZYGO_PHASE_RES_FACTORS res = some d) :
    calibrate raw s o w res
      = .ok ((raw.map fun v => if ZYGO_INVALID_PHASE ≤ v then none else some ((v : ℚ))).map
          (Option.map fun x => x * (s * o * w / (d : ℚ)))) := by
  unfold calibrate
  rw [hfac]
  rfl

/-- Calibration failure form (unrecognized resolution code). -/
theorem calibrate_err {raw : List Int} {s o w : ℚ} {res : Nat}
    (hfac : ZYGO_PHASE_RES_FACTORS res = none) :
    calibrate raw s o w res = .error ZErr.keyErrorPhaseRes := by
  unfold calibrate
  rw [hfac]
  rfl

/-- Pure outcome as a plain success. -/
theorem pureEqOk {α : Type} (a : α) : (pure a : Except ZErr α) = .ok a := rfl

/-- Meta accessor on a success. -/
@[simp] theorem okMeta_ok (r : DatResult) : okMeta (.ok r) = r.meta := rfl

/-- Intensity accessor on a success. -/
@[simp] theorem okIntensity_ok (r : DatResult) : okIntensity (.ok r) = r.intensity := rfl

/-- Phase accessor on a success. -/
@[simp] theorem okPhase_ok (r : DatResult) : okPhase (.ok r) = r.phase := rfl

/-- Element formula of a reshaped intensity stack read from the byte
buffer: entry `(b, y, x)` is the little-endian u16 at byte offset
`off + 2 * ((b*H + y)*W + x)`. -/
theorem intensity_at3_form (buf : List Nat) (off : Nat) {B H W : Nat}
    (b y x : Nat) (hb : b < B) (hy : y < H) (hx : x < W) :
    (Arr3.mk B H W (List.ofFn fun i : Fin (W * H * B) =>
        u16leAt buf (off + 2 * (i : Nat)))).at3 b y x
      = some (u16leAt buf (off + 2 * ((b * H + y) * W + x))) := by
  unfold Arr3.at3
  dsimp only
  rw [getOfFn _ _ (idx3_lt hb hy hx)]

/-- Element formula of the masked-and-scaled phase list: flat entry
`i*W + j` is the sentinel mask and scale of the big-endian i32 at byte
offset `off + 4 * (i*W + j)`. -/
theorem phase_val_form (buf : List Nat) (off W H : Nat) (s o w : ℚ) (d : Nat)
    (i j : Nat) (hi : i < H) (hj : j < W) :
    ((((List.ofFn fun k : Fin (W * H) => i32beAt buf (off + 4 * (k : Nat))).map
        fun v => if ZYGO_INVALID_PHASE ≤ v then none else some ((v : ℚ))).map
        (Option.map fun x => x * (s * o * w / (d : ℚ)))).getD (i * W + j) none)
      = (if ZYGO_INVALID_PHASE ≤ i32beAt buf (off + 4 * (i * W + j)) then none
         else some ((i32beAt buf (off + 4 * (i * W + j)) : ℚ) * (s * o * w / (d : ℚ)))) := by
  rw [List.getD_eq_get?, List.get?_map, List.get?_map, getOfFn _ _ (idx2_lt hi hj)]
  by_cases hs : ZYGO_INVALID_PHASE ≤ i32beAt buf (off + 4 * (i * W + j))
  · simp [hs]
  · simp [hs]

set_option maxHeartbeats 2000000 in
/-- C8 (confirmed): for every buffer on which `read_zygo_dat` succeeds
(header `M`), the intensity stack is absent exactly when
`ac_width * ac_height * max(ac_n_buckets, 1)` is 0; when present it has
dimensions `[buckets, ac_height, ac_width]` (a bucket count of 0 treated
as 1) and its element `(b, y, x)` is the unsigned little-endian 16-bit
sample at byte offset `header_size + 2*((b*height + y)*width + x)`; and
the phase array's raw samples begin immediately after the intensity span,
element `(i, j)` being the masked and scaled big-endian signed 32-bit
sample at byte offset `header_size + intens_size*2 + 4*(i*cn_width + j)`. -/
theorem zygoC8_theorem (buf : List Nat) (M : ZygoMeta)
    (hm : read_zygo_dat_meta buf = .ok M)
    (h : isOkE (read_zygo_dat buf) = true) :
    (okIntensity (read_zygo_dat buf) = none ↔ intensSize M = 0)
    ∧ (∀ I, okIntensity (read_zygo_dat buf) = some I →
        I.d0 = (if M.ac_n_buckets = 0 then 1 else M.ac_n_buckets)
        ∧ I.d1 = M.ac_height ∧ I.d2 = M.ac_width
        ∧ I.flat.length = intensSize M
        ∧ ∀ b y x, b < I.d0 → y < I.d1 → x < I.d2 →
            I.at3 b y x = some (u16leAt buf
              (M.header_size + 2 * ((b * I.d1 + y) * I.d2 + x))))
    ∧ (∀ P, okPhase (read_zygo_dat buf) = some P →
        P.rows = M.cn_height ∧ P.cols = M.cn_width
        ∧ ∀ d, ZYGO_PHASE_RES_FACTORS M.phase_res = some d →
          ∀ i j, i < P.rows → j < P.cols →
            P.val i j = (if ZYGO_INVALID_PHASE ≤ i32beAt buf (M.header_size
                + intensSize M * 2 + 4 * (i * M.cn_width + j)) then none
              else some ((i32beAt buf (M.header_size + intensSize M * 2
                + 4 * (i * M.cn_width + j)) : ℚ)
                * (M.scale_factor * M.obliquity_factor * M.wavelength / (d : ℚ))))) := by
  unfold read_zygo_dat at h ⊢
  rw [hm] at h ⊢
  simp only [zbind_ok] at h ⊢
  by_cases hsz : intensSize M > 0
  · rw [if_pos hsz] at h ⊢
    by_cases hcov : M.header_size + 2 * intensSize M ≤ buf.length
    · rw [fromBufferU16_ok hcov] at h ⊢
      simp only [zbind_ok, zbind_pure] at h ⊢
      by_cases hps : M.cn_width * M.cn_height > 0
      · rw [if_pos hps] at h ⊢
        by_cases hpcov : M.header_size + intensSize M * 2
            + 4 * (M.cn_width * M.cn_height) ≤ buf.length
        · rw [fromBufferI32BE_ok hpcov] at h ⊢
          simp only [zbind_ok] at h ⊢
          cases hfac : ZYGO_PHASE_RES_FACTORS M.phase_res with
          | none =>
            rw [calibrate_err hfac] at h
            simp [isOkE] at h
          | some d0 =>
            rw [calibrate_ok hfac] at h ⊢
            simp only [zbind_ok, zbind_pure, pureEqOk, okMeta_ok,
              okIntensity_ok, okPhase_ok] at h ⊢
            refine ⟨⟨fun hc => absurd hc (by simp), fun hc => by omega⟩, ?_, ?_⟩
            · intro I hI
              injection hI with hI2
              subst hI2
              refine ⟨rfl, rfl, rfl, by simp [List.length_ofFn], ?_⟩
              intro b y x hb hy hx
              exact intensity_at3_form buf M.header_size b y x hb hy hx
            · intro P hP
              injection hP with hP2
              subst hP2
              refine ⟨rfl, rfl, ?_⟩
              intro d hd i j hi hj
              injection hd with hd2
              subst hd2
              exact phase_val_form buf (M.header_size + intensSize M * 2)
                M.cn_width M.cn_height _ _ _ _ i j hi hj
        · rw [fromBufferI32BE_err hpcov] at h
          simp [isOkE] at h
      · rw [if_neg hps] at h ⊢
        simp only [zbind_ok, zbind_pure, pureEqOk, okMeta_ok,
          okIntensity_ok, okPhase_ok] at h ⊢
        refine ⟨⟨fun hc => absurd hc (by simp), fun hc => by omega⟩, ?_, ?_⟩
        · intro I hI
          injection hI with hI2
          subst hI2
          refine ⟨rfl, rfl, rfl, by simp [List.length_ofFn], ?_⟩
          intro b y x hb hy hx
          exact intensity_at3_form buf M.header_size b y x hb hy hx
        · intro P hP
          exact absurd hP (by simp)
    · rw [fromBufferU16_err hcov] at h
      simp [isOkE] at h
  · rw [if_neg hsz] at h ⊢
    simp only [zbind_ok, zbind_pure] at h ⊢
    by_cases hps : M.cn_width * M.cn_height > 0
    · rw [if_pos hps] at h ⊢
      by_cases hpcov : M.header_size + intensSize M * 2
          + 4 * (M.cn_width * M.cn_height) ≤ buf.length
      · rw [fromBufferI32BE_ok hpcov] at h ⊢
        simp only [zbind_ok] at h ⊢
        cases hfac : ZYGO_PHASE_RES_FACTORS M.phase_res with
        | none =>
          rw [calibrate_err hfac] at h
          simp [isOkE] at h
        | some d0 =>
          rw [calibrate_ok hfac] at h ⊢
          simp only [zbind_ok, zbind_pure, pureEqOk, okMeta_ok,
            okIntensity_ok, okPhase_ok] at h ⊢
          refine ⟨⟨fun _ => by omega, fun _ => by trivial⟩, ?_, ?_⟩
          · intro I hI
            exact absurd hI (by simp)
          · intro P hP
            injection hP with hP2
            subst hP2
            refine ⟨rfl, rfl, ?_⟩
            intro d hd i j hi hj
            injection hd with hd2
            subst hd2
            exact phase_val_form buf (M.header_size + intensSize M * 2)
              M.cn_width M.cn_height _ _ _ _ i j hi hj
      · rw [fromBufferI32BE_err hpcov] at h
        simp [isOkE] at h
    · rw [if_neg hps] at h ⊢
      simp only [zbind_ok, zbind_pure, pureEqOk, okMeta_ok,
        okIntensity_ok, okPhase_ok] at h ⊢
      exact ⟨⟨fun _ => by omega, fun _ => by trivial⟩,
        fun I hI => absurd hI (by simp), fun P hP => absurd hP (by simp)⟩

/-- A complete 840-byte `.dat` file: valid 834-byte header declaring a
1×1 single-bucket intensity region and a 1×1 phase region, followed by
one u16 intensity sample (7) and one big-endian i32 phase sample (9). -/
def bufC8 : List Nat :=
  [0x88, 0x1B, 0x03, 0x6F, 0, 1, 0, 0, 0x03, 0x42] ++ zeros 42
    ++ [0, 1, 0, 1] ++ zeros 8 ++ [0, 0, 0, 0, 0, 1, 0, 1] ++ zeros 762
    ++ [7, 0] ++ [0, 0, 0, 9]

/-- The header decoded from `bufC8`. -/
def metaC8 : ZygoMeta :=
  ⟨834, 1, 1, 0, 0, 0, 1, 1, f32toRat 0, f32toRat 0, f32toRat 0, f32toRat 0, 0⟩

/-- C8 witness: the theorem applied to the concrete file `bufC8`. -/
theorem zygoC8_witness :
    read_zygo_dat_meta bufC8 = .ok metaC8
    ∧ isOkE (read_zygo_dat bufC8) = true
    ∧ ((okIntensity (read_zygo_dat bufC8) = none ↔ intensSize metaC8 = 0)
      ∧ (∀ I, okIntensity (read_zygo_dat bufC8) = some I →
          I.d0 = (if metaC8.ac_n_buckets = 0 then 1 else metaC8.ac_n_buckets)
          ∧ I.d1 = metaC8.ac_height ∧ I.d2 = metaC8.ac_width
          ∧ I.flat.length = intensSize metaC8
          ∧ ∀ b y x, b < I.d0 → y < I.d1 → x < I.d2 →
              I.at3 b y x = some (u16leAt bufC8
                (metaC8.header_size + 2 * ((b * I.d1 + y) * I.d2 + x))))
      ∧ (∀ P, okPhase (read_zygo_dat bufC8) = some P →
          P.rows = metaC8.cn_height ∧ P.cols = metaC8.cn_width
          ∧ ∀ d, ZYGO_PHASE_RES_FACTORS metaC8.phase_res = some d →
            ∀ i j, i < P.rows → j < P.cols →
              P.val i j = (if ZYGO_INVALID_PHASE ≤ i32beAt bufC8 (metaC8.header_size
                  + intensSize metaC8 * 2 + 4 * (i * metaC8.cn_width + j)) then none
                else some ((i32beAt bufC8 (metaC8.header_size + intensSize metaC8 * 2
                  + 4 * (i * metaC8.cn_width + j)) : ℚ)
                  * (metaC8.scale_factor * metaC8.obliquity_factor
                    * metaC8.wavelength / (d : ℚ)))))) :=
  ⟨rfl, by decide, zygoC8_theorem bufC8 metaC8 rfl (by decide)⟩
